import Mathlib

/-!
Verification of the weather-mcp-server request/cache layer.

This file is a shallow embedding of the Python sources:
 * `src/tools/common.py`   – cache key derivation, TTL cache, `make_weather_request`
 * `src/tools/get_current_weather.py`, `get_forecast.py`,
   `get_weather_by_coordinates.py`, `get_air_quality.py`, `search_location.py`,
   `compare_weather.py` – the six MCP tools.

Modelling conventions:
 * JSON values (`response.json()`, tool results, cached payloads) are the
   inductive `JVal`; Python `None` is `JVal.null`.
 * The module-level dict `_cache` is threaded explicitly as a `CacheMap`
   (a function from keys to optional entries); `datetime.now().timestamp()`
   is an explicit rational parameter `now`.
 * The HTTP client is an explicit `Upstream` parameter describing the single
   outcome the `httpx` call would produce (a status/body response, a timeout,
   a request error, or any other exception, e.g. a JSON decode failure).
   `make_weather_request` additionally returns how many upstream HTTP calls
   it performed (0 or 1), and tools thread that count through.
 * `datetime.fromtimestamp(..).isoformat()` is an uninterpreted parameter
   `isoOf : ℚ → String` (wall-clock formatting, not modelled).
 * Query parameters (`Dict[str, Any]`) are association lists over the scalar
   type `PVal`; every call site in the repository passes only strings and
   numbers.  `json.dumps(params, sort_keys=True)` is modelled by `dumps`,
   which sorts the pairs by key in code-point lexicographic order (Python's
   `sorted` on `str`) and renders them with the default `", "`/`": "`
   separators.  String escaping inside `json.dumps` is not modelled; no
   claim depends on it.
 * `src/server.py` contains a second, legacy copy of the same cache logic
   (`_get_cache_key`, `_get_cached`, `_set_cache`, `_make_request`) with the
   identical key formula and TTL test; the definitions below are written
   from `src/tools/common.py`, which is the copy wired to the FastMCP tools.
-/

namespace WeatherMCP

/-- JSON values, as produced by `response.json()` in `src/tools/common.py`.
Python `None` is `null`; dicts keep their insertion order. -/
inductive JVal where
  | null
  | bool (b : Bool)
  | num (q : ℚ)
  | str (s : String)
  | arr (elems : List JVal)
  | obj (fields : List (String × JVal))

/-- A JSON object body: an insertion-ordered association list, as a Python dict. -/
abbrev Obj := List (String × JVal)

/-- Python truthiness (`if cached:` in `make_weather_request`):
`None`, `False`, `0`, `""`, `[]` and `\x7b\x7d` are falsy. -/
def JVal.truthy : JVal → Bool
  | .null => false
  | .bool b => b
  | .num q => decide (q ≠ 0)
  | .str s => decide (s ≠ "")
  | .arr xs => !xs.isEmpty
  | .obj fs => !fs.isEmpty

/-- First binding of `k` in a Python dict (dict keys are unique, so the first
binding is the binding). -/
def objLookup (k : String) : Obj → Option JVal
  | [] => none
  | (k', v) :: rest => if k' = k then some v else objLookup k rest

/-- Python dict assignment `d[k] = v`: overwrite the binding in place if the
key is present, else append it at the end. -/
def objInsert (k : String) (v : JVal) : Obj → Obj
  | [] => [(k, v)]
  | (k', v') :: rest => if k' = k then (k, v) :: rest else (k', v') :: objInsert k v rest

/-- Python `d.get(k, default)`. -/
def pyGetD (o : Obj) (k : String) (dflt : JVal) : JVal := (objLookup k o).getD dflt

/-- Python `d.get(k)` (default `None`). -/
def pyGet (o : Obj) (k : String) : JVal := pyGetD o k .null

/-- View a JSON value as an object.  A non-object where the Python code
chains another `.get` would raise `AttributeError`; that crash is outside
every claim and is not modelled (the value is read as the empty object). -/
def JVal.asObj : JVal → Obj
  | .obj fs => fs
  | _ => []

/-- View a JSON value as an array (`for item in data` over a JSON list). -/
def JVal.asArr : JVal → List JVal
  | .arr xs => xs
  | _ => []

/-- Numeric view, for `datetime.fromtimestamp(..)` arguments.  A non-number
would raise in Python; not modelled (read as 0). -/
def JVal.toQ : JVal → ℚ
  | .num q => q
  | _ => 0

/-- Python `d.get(k, \x7b\x7d)` followed by attribute-style `.get` chaining:
returns the stored object, or the empty object when the key is absent. -/
def pyGetObj (o : Obj) (k : String) : Obj := (pyGetD o k (.obj [])).asObj

/-- Python `d.get(k, [\x7b\x7d])[0]`: first element of the stored list (the
default singleton list when the key is absent).  Indexing an empty stored
list would raise `IndexError` in Python; not modelled (read as `\x7b\x7d`). -/
def pyListHeadObj (o : Obj) (k : String) : Obj :=
  match pyGetD o k (.arr [.obj []]) with
  | .arr (x :: _) => x.asObj
  | _ => []

/-- Scalar query-parameter values (`params : Dict[str, Any]`); every call
site in the repository passes strings or numbers. -/
inductive PVal where
  | str (s : String)
  | num (q : ℚ)
deriving DecidableEq

/-- `json.dumps` rendering of a scalar parameter value (string escaping not
modelled; no claim depends on the rendering of an individual value). -/
def PVal.dump : PVal → String
  | .str s => "\"" ++ s ++ "\""
  | .num q => toString q

/-- Code-point lexicographic comparison of character lists, the order
Python's `sorted` uses on `str` keys. -/
def charsLe : List Char → List Char → Bool
  | [], _ => true
  | _ :: _, [] => false
  | a :: as, b :: bs =>
      if a.toNat < b.toNat then true
      else if b.toNat < a.toNat then false
      else charsLe as bs

/-- `a <= b` on strings in code-point lexicographic order. -/
def strLe (a b : String) : Bool := charsLe a.data b.data

/-- Insert one key/value pair into a key-sorted list (helper for `sortPairs`). -/
def insertPair (kv : String × PVal) : List (String × PVal) → List (String × PVal)
  | [] => [kv]
  | hd :: tl => if strLe kv.1 hd.1 then kv :: hd :: tl else hd :: insertPair kv tl

/-- Sort parameter pairs by key, as `json.dumps(params, sort_keys=True)` does. -/
def sortPairs : List (String × PVal) → List (String × PVal)
  | [] => []
  | hd :: tl => insertPair hd (sortPairs tl)

/-- One `"key": value` item of the serialized parameter dict. -/
def dumpPair (kv : String × PVal) : String := "\"" ++ kv.1 ++ "\": " ++ kv.2.dump

/-- `json.dumps(params, sort_keys=True)` with the default separators. -/
def dumps (params : List (String × PVal)) : String :=
  "\x7b" ++ String.intercalate ", " ((sortPairs params).map dumpPair) ++ "\x7d"

/-- `get_cache_key` from `src/tools/common.py` (line 21):
`f"\x7bendpoint\x7d:\x7bjson.dumps(params, sort_keys=True)\x7d"`. -/
def get_cache_key (endpoint : String) (params : List (String × PVal)) : String :=
  endpoint ++ ":" ++ dumps params

/-- `CACHE_TTL = 600` (`src/tools/common.py` line 18), in seconds. -/
def CACHE_TTL : ℚ := 600

/-- One entry of the module-level `_cache` dict: `\x7b"data": ..., "timestamp": ...\x7d`. -/
structure CacheEntry where
  data : JVal
  timestamp : ℚ

/-- The `_cache` dict, as a map from cache keys to optional entries. -/
abbrev CacheMap := String → Option CacheEntry

/-- The initial empty `_cache`. -/
def emptyCache : CacheMap := fun _ => none

/-- Python dict assignment `_cache[key] = entry`. -/
def mapInsert (k : String) (e : CacheEntry) (c : CacheMap) : CacheMap :=
  fun k' => if k' = k then some e else c k'

/-- Python `del _cache[key]`. -/
def mapErase (k : String) (c : CacheMap) : CacheMap :=
  fun k' => if k' = k then none else c k'

/-- `get_cached` from `src/tools/common.py` (lines 26–34): return the stored
payload if present and fresh; delete a stale entry as a side effect (lazy
expiry).  Returns the read result together with the updated cache. -/
def get_cached (now : ℚ) (key : String) (c : CacheMap) : Option JVal × CacheMap :=
  match c key with
  | some cached =>
      if now - cached.timestamp < CACHE_TTL then (some cached.data, c)
      else (none, mapErase key c)
  | none => (none, c)

/-- `set_cache` from `src/tools/common.py` (lines 37–42): store `data` with
`timestamp = datetime.now().timestamp()`, overwriting any prior entry. -/
def set_cache (now : ℚ) (key : String) (data : JVal) (c : CacheMap) : CacheMap :=
  mapInsert key ⟨data, now⟩ c

/-- The outcome the `httpx` call inside `make_weather_request` would produce:
a response with a status code and parsed JSON body, a `httpx.TimeoutException`,
a `httpx.RequestError`, or any other exception (e.g. a JSON decode failure),
matching the four handlers in `src/tools/common.py` lines 76–113. -/
inductive Upstream where
  | resp (statusCode : Nat) (body : JVal)
  | timeout
  | reqError (msg : String)
  | otherExc (msg : String)

/-- Result of the request layer: the returned result dict, the cache state
after the call, and the number of upstream HTTP calls performed. -/
structure ReqOut where
  result : Obj
  cache : CacheMap
  calls : Nat

/-- The missing-API-key message (`src/tools/common.py` line 59). -/
def apiKeyErrMsg : String :=
  "API key not configured. Please set OPENWEATHER_API_KEY environment variable."

/-- The cache-hit marker write `cached["_from_cache"] = True`
(`src/tools/common.py` line 66).  On a non-dict payload Python would raise
`TypeError`; not modelled (no claim reaches that case). -/
def setFromCache : JVal → JVal
  | .obj fs => .obj (objInsert "_from_cache" (.bool true) fs)
  | v => v

/-- The aliasing effect of the marker write: `cached` is the very dict stored
under `_cache[key]["data"]`, so the stored entry's payload is replaced while
its timestamp is left untouched. -/
def mutateEntryData (key : String) (d : JVal) (c : CacheMap) : CacheMap :=
  fun k' => if k' = key then (c k').map (fun e => ⟨d, e.timestamp⟩) else c k'

/-- The `try: async with httpx.AsyncClient() ...` block of
`make_weather_request` (`src/tools/common.py` lines 72–113): one HTTP call,
classified by status code, with the three exception handlers. -/
def fetchUpstream (now : ℚ) (up : Upstream) (cacheKey : String) (c : CacheMap) : ReqOut :=
  match up with
  | .resp code body =>
      if code = 200 then
        ⟨[("success", .bool true), ("data", body)], set_cache now cacheKey body c, 1⟩
      else if code = 401 then
        ⟨[("success", .bool false), ("error", .str "Invalid API key"),
          ("status_code", .num 401)], c, 1⟩
      else if code = 404 then
        ⟨[("success", .bool false), ("error", .str "Location not found"),
          ("status_code", .num 404)], c, 1⟩
      else
        ⟨[("success", .bool false), ("error", .str ("API error: " ++ toString code)),
          ("status_code", .num code)], c, 1⟩
  | .timeout =>
      ⟨[("success", .bool false), ("error", .str "Request timed out")], c, 1⟩
  | .reqError m =>
      ⟨[("success", .bool false), ("error", .str ("Request failed: " ++ m))], c, 1⟩
  | .otherExc m =>
      ⟨[("success", .bool false), ("error", .str ("Unexpected error: " ++ m))], c, 1⟩

/-- `make_weather_request` from `src/tools/common.py` (lines 45–113):
missing-key check, cache lookup (`if cached:` is Python truthiness), marker
write on a hit, otherwise exactly one upstream call.  The `params["appid"]`
mutation happens after the cache key is computed and is invisible to the
caller's dict literal, so it is not modelled. -/
def make_weather_request (apiKey : String) (now : ℚ) (up : Upstream)
    (endpoint : String) (params : List (String × PVal)) (c : CacheMap) : ReqOut :=
  if apiKey = "" then
    ⟨[("success", .bool false), ("error", .str apiKeyErrMsg)], c, 0⟩
  else
    let cacheKey := get_cache_key endpoint params
    let looked := get_cached now cacheKey c
    match looked.1 with
    | some cached =>
        if cached.truthy then
          ⟨[("success", .bool true), ("data", setFromCache cached)],
            mutateEntryData cacheKey (setFromCache cached) looked.2, 0⟩
        else fetchUpstream now up cacheKey looked.2
    | none => fetchUpstream now up cacheKey looked.2

/-- Whether the current call would be answered from the cache: a fresh entry
whose payload is truthy (`if cached:`). -/
def servesFromCache (now : ℚ) (key : String) (c : CacheMap) : Bool :=
  match (get_cached now key c).1 with
  | some d => d.truthy
  | none => false

/-- `BASE_URL` (`src/tools/common.py` line 12). -/
def BASE_URL : String := "https://api.openweathermap.org/data/2.5"

/-- `GEO_URL` (`src/tools/common.py` line 13). -/
def GEO_URL : String := "http://api.openweathermap.org/geo/1.0"

/-- Python `if not result["success"]:` — truthiness of the `success` field. -/
def resultOk (r : Obj) : Bool := (pyGet r "success").truthy

/-- The `get_current_weather` tool (`src/tools/get_current_weather.py`,
lines 29–69). -/
def get_current_weather (apiKey : String) (now : ℚ) (isoOf : ℚ → String) (up : Upstream)
    (location units : String) (c : CacheMap) : ReqOut :=
  let endpoint := BASE_URL ++ "/weather"
  let params := [("q", PVal.str location), ("units", PVal.str units)]
  let r := make_weather_request apiKey now up endpoint params c
  if !resultOk r.result then r
  else
    let data := (pyGet r.result "data").asObj
    ⟨[("success", .bool true),
      ("location", .obj [
        ("name", pyGet data "name"),
        ("country", pyGet (pyGetObj data "sys") "country"),
        ("coordinates", .obj [
          ("latitude", pyGet (pyGetObj data "coord") "lat"),
          ("longitude", pyGet (pyGetObj data "coord") "lon")])]),
      ("current", .obj [
        ("temperature", pyGet (pyGetObj data "main") "temp"),
        ("feels_like", pyGet (pyGetObj data "main") "feels_like"),
        ("temp_min", pyGet (pyGetObj data "main") "temp_min"),
        ("temp_max", pyGet (pyGetObj data "main") "temp_max"),
        ("pressure", pyGet (pyGetObj data "main") "pressure"),
        ("humidity", pyGet (pyGetObj data "main") "humidity"),
        ("description", pyGet (pyListHeadObj data "weather") "description"),
        ("icon", pyGet (pyListHeadObj data "weather") "icon"),
        ("wind", .obj [
          ("speed", pyGet (pyGetObj data "wind") "speed"),
          ("direction", pyGet (pyGetObj data "wind") "deg")]),
        ("clouds", pyGet (pyGetObj data "clouds") "all"),
        ("visibility", pyGet data "visibility")]),
      ("timestamp", .str (isoOf (pyGetD data "dt" (.num 0)).toQ)),
      ("sunrise", .str (isoOf (pyGetD (pyGetObj data "sys") "sunrise" (.num 0)).toQ)),
      ("sunset", .str (isoOf (pyGetD (pyGetObj data "sys") "sunset" (.num 0)).toQ)),
      ("units", .str units)], r.cache, r.calls⟩

/-- One element of the `forecasts` list built by `get_forecast`
(`src/tools/get_forecast.py`, lines 46–60). -/
def forecastItem (isoOf : ℚ → String) (v : JVal) : JVal :=
  let item := v.asObj
  .obj [
    ("datetime", .str (isoOf (pyGetD item "dt" (.num 0)).toQ)),
    ("temperature", pyGet (pyGetObj item "main") "temp"),
    ("feels_like", pyGet (pyGetObj item "main") "feels_like"),
    ("temp_min", pyGet (pyGetObj item "main") "temp_min"),
    ("temp_max", pyGet (pyGetObj item "main") "temp_max"),
    ("pressure", pyGet (pyGetObj item "main") "pressure"),
    ("humidity", pyGet (pyGetObj item "main") "humidity"),
    ("description", pyGet (pyListHeadObj item "weather") "description"),
    ("icon", pyGet (pyListHeadObj item "weather") "icon"),
    ("wind_speed", pyGet (pyGetObj item "wind") "speed"),
    ("clouds", pyGet (pyGetObj item "clouds") "all"),
    ("pop", pyGetD item "pop" (.num 0))]

/-- The `get_forecast` tool (`src/tools/get_forecast.py`, lines 31–74);
`cnt = min(days, 5) * 8`. -/
def get_forecast (apiKey : String) (now : ℚ) (isoOf : ℚ → String) (up : Upstream)
    (location units : String) (days : Int) (c : CacheMap) : ReqOut :=
  let endpoint := BASE_URL ++ "/forecast"
  let params := [("q", PVal.str location), ("units", PVal.str units),
                 ("cnt", PVal.num ((min days 5 * 8 : Int) : ℚ))]
  let r := make_weather_request apiKey now up endpoint params c
  if !resultOk r.result then r
  else
    let data := (pyGet r.result "data").asObj
    ⟨[("success", .bool true),
      ("location", .obj [
        ("name", pyGet (pyGetObj data "city") "name"),
        ("country", pyGet (pyGetObj data "city") "country"),
        ("coordinates", .obj [
          ("latitude", pyGet (pyGetObj (pyGetObj data "city") "coord") "lat"),
          ("longitude", pyGet (pyGetObj (pyGetObj data "city") "coord") "lon")])]),
      ("forecast", .arr ((pyGetD data "list" (.arr [])).asArr.map (forecastItem isoOf))),
      ("units", .str units)], r.cache, r.calls⟩

/-- The `get_weather_by_coordinates` tool
(`src/tools/get_weather_by_coordinates.py`, lines 31–66). -/
def get_weather_by_coordinates (apiKey : String) (now : ℚ) (isoOf : ℚ → String)
    (up : Upstream) (latitude longitude : ℚ) (units : String) (c : CacheMap) : ReqOut :=
  let endpoint := BASE_URL ++ "/weather"
  let params := [("lat", PVal.num latitude), ("lon", PVal.num longitude),
                 ("units", PVal.str units)]
  let r := make_weather_request apiKey now up endpoint params c
  if !resultOk r.result then r
  else
    let data := (pyGet r.result "data").asObj
    ⟨[("success", .bool true),
      ("location", .obj [
        ("name", pyGet data "name"),
        ("country", pyGet (pyGetObj data "sys") "country"),
        ("coordinates", .obj [
          ("latitude", .num latitude),
          ("longitude", .num longitude)])]),
      ("current", .obj [
        ("temperature", pyGet (pyGetObj data "main") "temp"),
        ("feels_like", pyGet (pyGetObj data "main") "feels_like"),
        ("humidity", pyGet (pyGetObj data "main") "humidity"),
        ("pressure", pyGet (pyGetObj data "main") "pressure"),
        ("description", pyGet (pyListHeadObj data "weather") "description"),
        ("wind_speed", pyGet (pyGetObj data "wind") "speed"),
        ("clouds", pyGet (pyGetObj data "clouds") "all")]),
      ("timestamp", .str (isoOf (pyGetD data "dt" (.num 0)).toQ)),
      ("units", .str units)], r.cache, r.calls⟩

/-- The `aqi_levels` dict lookup `aqi_levels.get(.., "Unknown")`
(`src/tools/get_air_quality.py`, lines 42–48, 59).  Python compares dict
keys with `==`, under which `True == 1`. -/
def aqiLevelName (v : JVal) : String :=
  match v with
  | .num q =>
      if q = 1 then "Good" else if q = 2 then "Fair" else if q = 3 then "Moderate"
      else if q = 4 then "Poor" else if q = 5 then "Very Poor" else "Unknown"
  | .bool b => if b then "Good" else "Unknown"
  | _ => "Unknown"

/-- The `get_air_quality` tool (`src/tools/get_air_quality.py`, lines 29–62);
`air_data = data.get("list", [\x7b\x7d])[0]`. -/
def get_air_quality (apiKey : String) (now : ℚ) (isoOf : ℚ → String) (up : Upstream)
    (latitude longitude : ℚ) (c : CacheMap) : ReqOut :=
  let endpoint := BASE_URL ++ "/air_pollution"
  let params := [("lat", PVal.num latitude), ("lon", PVal.num longitude)]
  let r := make_weather_request apiKey now up endpoint params c
  if !resultOk r.result then r
  else
    let data := (pyGet r.result "data").asObj
    let airData := pyListHeadObj data "list"
    ⟨[("success", .bool true),
      ("coordinates", .obj [("latitude", .num latitude), ("longitude", .num longitude)]),
      ("air_quality_index", pyGet (pyGetObj airData "main") "aqi"),
      ("aqi_level", .str (aqiLevelName (pyGetD (pyGetObj airData "main") "aqi" (.num 0)))),
      ("components", pyGetD airData "components" (.obj [])),
      ("timestamp", .str (isoOf (pyGetD airData "dt" (.num 0)).toQ))], r.cache, r.calls⟩

/-- One element of the `locations` list built by `search_location`
(`src/tools/search_location.py`, lines 42–52). -/
def searchItem (v : JVal) : JVal :=
  let item := v.asObj
  .obj [("name", pyGet item "name"),
        ("local_names", pyGetD item "local_names" (.obj [])),
        ("country", pyGet item "country"),
        ("state", pyGet item "state"),
        ("coordinates", .obj [("latitude", pyGet item "lat"),
                              ("longitude", pyGet item "lon")])]

/-- The `search_location` tool (`src/tools/search_location.py`, lines 28–59);
`limit = min(limit, 10)`; the geocoding payload is a JSON array. -/
def search_location (apiKey : String) (now : ℚ) (up : Upstream)
    (query : String) (limit : Int) (c : CacheMap) : ReqOut :=
  let endpoint := GEO_URL ++ "/direct"
  let params := [("q", PVal.str query), ("limit", PVal.num ((min limit 10 : Int) : ℚ))]
  let r := make_weather_request apiKey now up endpoint params c
  if !resultOk r.result then r
  else
    let found := (pyGet r.result "data").asArr.map searchItem
    ⟨[("success", .bool true),
      ("query", .str query),
      ("results", .arr found),
      ("count", .num found.length)], r.cache, r.calls⟩

/-- One element of the `comparisons` list built by `compare_weather`
(`src/tools/compare_weather.py`, lines 48–67): the per-location summary on
success, or `\x7b"location": .., "error": ..\x7d` on failure. -/
def comparisonEntry (r : Obj) (location : String) : JVal :=
  if resultOk r then
    let data := (pyGet r "data").asObj
    .obj [("location", .obj [
            ("name", pyGet data "name"),
            ("country", pyGet (pyGetObj data "sys") "country")]),
          ("current", .obj [
            ("temperature", pyGet (pyGetObj data "main") "temp"),
            ("feels_like", pyGet (pyGetObj data "main") "feels_like"),
            ("humidity", pyGet (pyGetObj data "main") "humidity"),
            ("description", pyGet (pyListHeadObj data "weather") "description"),
            ("wind_speed", pyGet (pyGetObj data "wind") "speed")])]
  else
    .obj [("location", .str location),
          ("error", pyGetD r "error" (.str "Failed to fetch weather data"))]

/-- The `for location in locations:` loop of `compare_weather`
(`src/tools/compare_weather.py`, lines 41–67).  The i-th iteration's HTTP
outcome is `ups i`; the cache is threaded through the sequential calls. -/
def compareLoop (apiKey : String) (now : ℚ) (ups : Nat → Upstream) (units : String) :
    List String → Nat → CacheMap → List JVal × CacheMap × Nat
  | [], _, c => ([], c, 0)
  | location :: rest, i, c =>
      let endpoint := BASE_URL ++ "/weather"
      let params := [("q", PVal.str location), ("units", PVal.str units)]
      let r := make_weather_request apiKey now (ups i) endpoint params c
      let out := compareLoop apiKey now ups units rest (i + 1) r.cache
      (comparisonEntry r.result location :: out.1, out.2.1, r.calls + out.2.2)

/-- The `compare_weather` tool (`src/tools/compare_weather.py`, lines 29–74):
list-length validation, then one sequential request per location, always
returning an aggregate `success: True`. -/
def compare_weather (apiKey : String) (now : ℚ) (isoOf : ℚ → String)
    (ups : Nat → Upstream) (locations : List String) (units : String)
    (c : CacheMap) : ReqOut :=
  if locations.length < 2 then
    ⟨[("success", .bool false),
      ("error", .str "Please provide at least 2 locations to compare")], c, 0⟩
  else if locations.length > 5 then
    ⟨[("success", .bool false),
      ("error", .str "Maximum 5 locations allowed for comparison")], c, 0⟩
  else
    let out := compareLoop apiKey now ups units locations 0 c
    ⟨[("success", .bool true),
      ("locations", .arr out.1),
      ("units", .str units),
      ("comparison_time", .str (isoOf now))], out.2.1, out.2.2⟩

/-- One invocation of any of the six registered MCP tools, with its
arguments. -/
inductive ToolCall where
  | currentWeather (location units : String)
  | forecast (location units : String) (days : Int)
  | byCoordinates (latitude longitude : ℚ) (units : String)
  | airQuality (latitude longitude : ℚ)
  | searchLoc (query : String) (limit : Int)
  | compare (locations : List String) (units : String)

/-- Dispatch a tool call to the corresponding tool function. -/
def runTool (apiKey : String) (now : ℚ) (isoOf : ℚ → String) (ups : Nat → Upstream) :
    ToolCall → CacheMap → ReqOut
  | .currentWeather location units, c =>
      get_current_weather apiKey now isoOf (ups 0) location units c
  | .forecast location units days, c =>
      get_forecast apiKey now isoOf (ups 0) location units days c
  | .byCoordinates latitude longitude units, c =>
      get_weather_by_coordinates apiKey now isoOf (ups 0) latitude longitude units c
  | .airQuality latitude longitude, c =>
      get_air_quality apiKey now isoOf (ups 0) latitude longitude c
  | .searchLoc query limit, c =>
      search_location apiKey now (ups 0) query limit c
  | .compare locations units, c =>
      compare_weather apiKey now isoOf ups locations units c

/-! ### Order lemmas for the key sort used by `dumps` -/

theorem charInj {a b : Char} (h : a.toNat = b.toNat) : a = b := by
  apply Char.ext
  exact congrArg UInt32.mk (BitVec.eq_of_toNat_eq h)

theorem charsLe_cons (x y : Char) (xs ys : List Char) :
    charsLe (x :: xs) (y :: ys) =
      if x.toNat < y.toNat then true
      else if y.toNat < x.toNat then false else charsLe xs ys := rfl

theorem charsLe_total (a : List Char) : ∀ b, charsLe a b = true ∨ charsLe b a = true := by
  induction a with
  | nil => intro b; left; rfl
  | cons x xs ih =>
      intro b
      cases b with
      | nil => right; rfl
      | cons y ys =>
          rw [charsLe_cons, charsLe_cons]
          rcases Nat.lt_trichotomy x.toNat y.toNat with h | h | h
          · left; rw [if_pos h]
          · have h1 : ¬x.toNat < y.toNat := by omega
            have h2 : ¬y.toNat < x.toNat := by omega
            rw [if_neg h1, if_neg h2, if_neg h2, if_neg h1]
            exact ih ys
          · right; rw [if_pos h]

theorem charsLe_trans {a b c : List Char} (hab : charsLe a b = true)
    (hbc : charsLe b c = true) : charsLe a c = true := by
  induction a generalizing b c with
  | nil => rfl
  | cons x xs ih =>
      cases b with
      | nil => exact absurd hab (by intro h; exact Bool.noConfusion h)
      | cons y ys =>
          cases c with
          | nil => exact absurd hbc (by intro h; exact Bool.noConfusion h)
          | cons z zs =>
              rw [charsLe_cons] at hab hbc ⊢
              by_cases h1 : x.toNat < y.toNat
              · by_cases h2 : y.toNat < z.toNat
                · rw [if_pos (by omega : x.toNat < z.toNat)]
                · rw [if_neg h2] at hbc
                  by_cases h3 : z.toNat < y.toNat
                  · rw [if_pos h3] at hbc; exact absurd hbc (by intro h; exact Bool.noConfusion h)
                  · rw [if_pos (by omega : x.toNat < z.toNat)]
              · rw [if_neg h1] at hab
                by_cases h1' : y.toNat < x.toNat
                · rw [if_pos h1'] at hab; exact absurd hab (by intro h; exact Bool.noConfusion h)
                · rw [if_neg h1'] at hab
                  by_cases h2 : y.toNat < z.toNat
                  · rw [if_pos (by omega : x.toNat < z.toNat)]
                  · rw [if_neg h2] at hbc
                    by_cases h3 : z.toNat < y.toNat
                    · rw [if_pos h3] at hbc
                      exact absurd hbc (by intro h; exact Bool.noConfusion h)
                    · rw [if_neg h3] at hbc
                      rw [if_neg (by omega : ¬x.toNat < z.toNat),
                          if_neg (by omega : ¬z.toNat < x.toNat)]
                      exact ih hab hbc

theorem charsLe_antisymm {a b : List Char} (hab : charsLe a b = true)
    (hba : charsLe b a = true) : a = b := by
  induction a generalizing b with
  | nil =>
      cases b with
      | nil => rfl
      | cons y ys => exact absurd hba (by intro h; exact Bool.noConfusion h)
  | cons x xs ih =>
      cases b with
      | nil => exact absurd hab (by intro h; exact Bool.noConfusion h)
      | cons y ys =>
          rw [charsLe_cons] at hab hba
          by_cases h1 : x.toNat < y.toNat
          · rw [if_neg (by omega : ¬y.toNat < x.toNat), if_pos h1] at hba
            exact absurd hba (by intro h; exact Bool.noConfusion h)
          · by_cases h2 : y.toNat < x.toNat
            · rw [if_neg h1, if_pos h2] at hab
              exact absurd hab (by intro h; exact Bool.noConfusion h)
            · rw [if_neg h1, if_neg h2] at hab
              rw [if_neg h2, if_neg h1] at hba
              have hx : x = y := charInj (by omega)
              rw [hx, ih hab hba]

theorem strLe_total (a b : String) : strLe a b = true ∨ strLe b a = true :=
  charsLe_total a.data b.data

theorem strLe_trans {a b c : String} (hab : strLe a b = true) (hbc : strLe b c = true) :
    strLe a c = true :=
  charsLe_trans hab hbc

theorem strLe_antisymm {a b : String} (hab : strLe a b = true) (hba : strLe b a = true) :
    a = b := by
  cases a; cases b
  exact congrArg String.mk (charsLe_antisymm hab hba)

/-- The order `json.dumps(params, sort_keys=True)` sorts by: comparison of
the keys of two parameter pairs. -/
def keyLe (a b : String × PVal) : Prop := strLe a.1 b.1 = true

theorem insertPair_perm (kv : String × PVal) (l : List (String × PVal)) :
    List.Perm (insertPair kv l) (kv :: l) := by
  induction l with
  | nil => exact List.Perm.refl _
  | cons hd tl ih =>
      simp only [insertPair]
      by_cases h : strLe kv.1 hd.1 = true
      · simp [h]
      · simp only [h, if_false]
        exact (ih.cons hd).trans (List.Perm.swap kv hd tl)

theorem sortPairs_perm (l : List (String × PVal)) : List.Perm (sortPairs l) l := by
  induction l with
  | nil => exact List.Perm.refl _
  | cons hd tl ih =>
      simp only [sortPairs]
      exact (insertPair_perm hd (sortPairs tl)).trans (ih.cons hd)

theorem insertPair_pairwise {kv : String × PVal} {l : List (String × PVal)}
    (h : l.Pairwise keyLe) : (insertPair kv l).Pairwise keyLe := by
  induction l with
  | nil => simp [insertPair]
  | cons hd tl ih =>
      rcases List.pairwise_cons.mp h with ⟨hhd, htl⟩
      simp only [insertPair]
      by_cases hle : strLe kv.1 hd.1 = true
      · simp only [hle, if_true]
        refine List.pairwise_cons.mpr ⟨?_, h⟩
        intro b hb
        rcases List.mem_cons.mp hb with rfl | hb
        · exact hle
        · exact strLe_trans hle (hhd b hb)
      · simp only [hle, if_false]
        refine List.pairwise_cons.mpr ⟨?_, ih htl⟩
        intro b hb
        have hb' := (insertPair_perm kv tl).mem_iff.mp hb
        rcases List.mem_cons.mp hb' with rfl | hb'
        · rcases strLe_total b.1 hd.1 with h' | h'
          · exact absurd h' hle
          · exact h'
        · exact hhd b hb'

theorem sortPairs_pairwise (l : List (String × PVal)) : (sortPairs l).Pairwise keyLe := by
  induction l with
  | nil => simp [sortPairs]
  | cons hd tl ih => exact insertPair_pairwise ih

theorem sorted_nodupKeys_perm_eq :
    ∀ {l₁ l₂ : List (String × PVal)}, List.Perm l₁ l₂ →
      l₁.Pairwise keyLe → l₂.Pairwise keyLe → (l₁.map Prod.fst).Nodup → l₁ = l₂ := by
  intro l₁
  induction l₁ with
  | nil => intro l₂ hp _ _ _; exact hp.nil_eq
  | cons a t₁ ih =>
      intro l₂ hp hs₁ hs₂ hnd
      cases l₂ with
      | nil => exact absurd hp.symm.nil_eq (by simp)
      | cons b t₂ =>
          by_cases hab : a = b
          · subst hab
            have hp' := hp.cons_inv
            have := ih hp' (List.pairwise_cons.mp hs₁).2 (List.pairwise_cons.mp hs₂).2
              (by simpa using (List.nodup_cons.mp (by simpa using hnd)).2)
            rw [this]
          · exfalso
            have hamem : a ∈ b :: t₂ := hp.subset (List.mem_cons_self a t₁)
            have hat₂ : a ∈ t₂ := by
              rcases List.mem_cons.mp hamem with h | h
              · exact absurd h hab
              · exact h
            have hbmem : b ∈ a :: t₁ := hp.symm.subset (List.mem_cons_self b t₂)
            have hbt₁ : b ∈ t₁ := by
              rcases List.mem_cons.mp hbmem with h | h
              · exact absurd h.symm hab
              · exact h
            have h₁ : keyLe a b := (List.pairwise_cons.mp hs₁).1 b hbt₁
            have h₂ : keyLe b a := (List.pairwise_cons.mp hs₂).1 a hat₂
            have hkey : a.1 = b.1 := strLe_antisymm h₁ h₂
            have hnd₂ : ((b :: t₂).map Prod.fst).Nodup :=
              ((hp.map Prod.fst).nodup_iff).mp hnd
            have hbnotin : b.1 ∉ t₂.map Prod.fst :=
              (List.nodup_cons.mp (by simpa using hnd₂)).1
            exact hbnotin (hkey ▸ List.mem_map_of_mem Prod.fst hat₂)

/-! ### Evaluation lemmas for the cache and the request layer -/

theorem objLookup_objInsert_self (k : String) (v : JVal) (o : Obj) :
    objLookup k (objInsert k v o) = some v := by
  induction o with
  | nil => simp [objInsert, objLookup]
  | cons hd tl ih =>
      obtain ⟨k', v'⟩ := hd
      simp only [objInsert]
      by_cases h : k' = k
      · simp [h, objLookup]
      · simp [h, objLookup, ih]

theorem objInsert_ne_nil (k : String) (v : JVal) (o : Obj) : objInsert k v o ≠ [] := by
  cases o with
  | nil => simp [objInsert]
  | cons hd tl =>
      obtain ⟨k', v'⟩ := hd
      simp only [objInsert]
      by_cases h : k' = k <;> simp [h]

theorem objInsert_objInsert (k : String) (v : JVal) (o : Obj) :
    objInsert k v (objInsert k v o) = objInsert k v o := by
  induction o with
  | nil => simp [objInsert]
  | cons hd tl ih =>
      obtain ⟨k', v'⟩ := hd
      simp only [objInsert]
      by_cases h : k' = k
      · simp [h, objInsert]
      · simp [h, objInsert, ih]

theorem get_cached_snd (now : ℚ) (key : String) (c : CacheMap) :
    (get_cached now key c).2 = c ∨ (get_cached now key c).2 = mapErase key c := by
  unfold get_cached
  cases hc : c key with
  | none => left; rfl
  | some e =>
      by_cases h : now - e.timestamp < CACHE_TTL
      · left; simp [h]
      · right; simp [h]

theorem fetchUpstream_calls (now : ℚ) (up : Upstream) (cacheKey : String) (c : CacheMap) :
    (fetchUpstream now up cacheKey c).calls = 1 := by
  cases up with
  | resp code body =>
      simp only [fetchUpstream]
      by_cases h200 : code = 200
      · simp [h200]
      · by_cases h401 : code = 401
        · simp [h200, h401]
        · by_cases h404 : code = 404 <;> simp [h200, h401, h404]
  | timeout => rfl
  | reqError m => rfl
  | otherExc m => rfl

theorem make_request_hit (apiKey : String) (now : ℚ) (up : Upstream)
    (endpoint : String) (params : List (String × PVal)) (c : CacheMap) (e : CacheEntry)
    (hk : apiKey ≠ "") (hc : c (get_cache_key endpoint params) = some e)
    (hfresh : now - e.timestamp < CACHE_TTL) (htruthy : e.data.truthy = true) :
    make_weather_request apiKey now up endpoint params c =
      ⟨[("success", .bool true), ("data", setFromCache e.data)],
        mutateEntryData (get_cache_key endpoint params) (setFromCache e.data) c, 0⟩ := by
  have hg : get_cached now (get_cache_key endpoint params) c = (some e.data, c) := by
    unfold get_cached
    rw [hc]
    simp [hfresh]
  unfold make_weather_request
  rw [if_neg hk]
  simp only [hg, htruthy, if_true]

theorem make_request_fetch (apiKey : String) (now : ℚ) (up : Upstream)
    (endpoint : String) (params : List (String × PVal)) (c : CacheMap)
    (hk : apiKey ≠ "")
    (hmiss : servesFromCache now (get_cache_key endpoint params) c = false) :
    make_weather_request apiKey now up endpoint params c =
      fetchUpstream now up (get_cache_key endpoint params)
        (get_cached now (get_cache_key endpoint params) c).2 := by
  unfold servesFromCache at hmiss
  unfold make_weather_request
  rw [if_neg hk]
  cases heq : (get_cached now (get_cache_key endpoint params) c).1 with
  | none => simp only [heq]
  | some d =>
      rw [heq] at hmiss
      have hm : d.truthy = false := hmiss
      simp only [heq]
      rw [if_neg (by simp [hm])]

theorem make_request_serve (apiKey : String) (now : ℚ) (up : Upstream)
    (endpoint : String) (params : List (String × PVal)) (c : CacheMap)
    (hk : apiKey ≠ "")
    (hserve : servesFromCache now (get_cache_key endpoint params) c = true) :
    ∃ d, (make_weather_request apiKey now up endpoint params c).result
      = [("success", .bool true), ("data", d)] := by
  unfold servesFromCache at hserve
  unfold make_weather_request
  rw [if_neg hk]
  cases heq : (get_cached now (get_cache_key endpoint params) c).1 with
  | none => rw [heq] at hserve; exact absurd hserve (by simp)
  | some d =>
      rw [heq] at hserve
      have ht : d.truthy = true := hserve
      simp only [heq, ht, if_true]
      exact ⟨setFromCache d, rfl⟩

theorem make_request_no_key (now : ℚ) (up : Upstream) (endpoint : String)
    (params : List (String × PVal)) (c : CacheMap) :
    make_weather_request "" now up endpoint params c =
      ⟨[("success", .bool false), ("error", .str apiKeyErrMsg)], c, 0⟩ := rfl

theorem compareLoop_no_key (now : ℚ) (ups : Nat → Upstream) (units : String) :
    ∀ (locations : List String) (i : Nat) (c : CacheMap),
      compareLoop "" now ups units locations i c =
        (locations.map (fun location =>
            JVal.obj [("location", .str location), ("error", .str apiKeyErrMsg)]),
          c, 0) := by
  intro locations
  induction locations with
  | nil => intro i c; rfl
  | cons hd tl ih =>
      intro i c
      simp only [compareLoop, make_request_no_key, ih, List.map]
      rfl

/-! ### The claims -/

/-- C1: for every endpoint and any two parameter mappings that are
permutations of the same key/value pairs (mappings, so keys are distinct),
`get_cache_key` returns identical cache keys, because `json.dumps(...,
sort_keys=True)` serializes the pairs in sorted key order. -/
theorem C1_cache_key_perm_invariant (endpoint : String)
    (p1 p2 : List (String × PVal)) (hperm : List.Perm p1 p2)
    (hnd : (p1.map Prod.fst).Nodup) :
    get_cache_key endpoint p1 = get_cache_key endpoint p2 := by
  have hsorted : sortPairs p1 = sortPairs p2 := by
    apply sorted_nodupKeys_perm_eq
    · exact (sortPairs_perm p1).trans (hperm.trans (sortPairs_perm p2).symm)
    · exact sortPairs_pairwise p1
    · exact sortPairs_pairwise p2
    · exact ((sortPairs_perm p1).map Prod.fst).nodup_iff.mpr hnd
  unfold get_cache_key dumps
  rw [hsorted]

/-- C1 witness: the two orders of `\x7b"q": "London", "units": "metric"\x7d`
produce the same cache key. -/
theorem C1_cache_key_perm_invariant_witness :
    List.Perm [("units", PVal.str "metric"), ("q", PVal.str "London")]
      [("q", PVal.str "London"), ("units", PVal.str "metric")]
    ∧ ([(("units" : String), PVal.str "metric"),
        ("q", PVal.str "London")].map Prod.fst).Nodup
    ∧ get_cache_key (BASE_URL ++ "/weather")
        [("units", PVal.str "metric"), ("q", PVal.str "London")]
      = get_cache_key (BASE_URL ++ "/weather")
        [("q", PVal.str "London"), ("units", PVal.str "metric")] :=
  ⟨by decide, by decide,
    C1_cache_key_perm_invariant (BASE_URL ++ "/weather") _ _ (by decide) (by decide)⟩

/-- C3: `get(k)` on an entry stored at least `CACHE_TTL` seconds ago returns
absent and deletes the entry, so a second `get(k)` is also absent. -/
theorem C3_stale_get_purges (now : ℚ) (k : String) (c : CacheMap) (e : CacheEntry)
    (hc : c k = some e) (hstale : CACHE_TTL ≤ now - e.timestamp) :
    get_cached now k c = (none, mapErase k c)
    ∧ (get_cached now k c).2 k = none
    ∧ (get_cached now k (get_cached now k c).2).1 = none := by
  have hlt : ¬(now - e.timestamp < CACHE_TTL) := not_lt.mpr hstale
  have h1 : get_cached now k c = (none, mapErase k c) := by
    unfold get_cached
    rw [hc]
    simp [hlt]
  refine ⟨h1, ?_, ?_⟩
  · rw [h1]; simp [mapErase]
  · rw [h1]
    unfold get_cached
    simp [mapErase]

/-- C3 witness: an entry stored at time 0, read at time 600. -/
theorem C3_stale_get_purges_witness :
    ((fun k' => if k' = "k" then some (⟨.obj [("cod", .num 200)], 0⟩ : CacheEntry)
       else none) : CacheMap) "k" = some ⟨.obj [("cod", .num 200)], 0⟩
    ∧ CACHE_TTL ≤ (600 : ℚ) - (⟨.obj [("cod", .num 200)], 0⟩ : CacheEntry).timestamp
    ∧ (get_cached 600 "k" (fun k' => if k' = "k" then
          some ⟨.obj [("cod", .num 200)], 0⟩ else none)).2 "k" = none
    ∧ (get_cached 600 "k" (get_cached 600 "k" (fun k' => if k' = "k" then
          some ⟨.obj [("cod", .num 200)], 0⟩ else none)).2).1 = none := by
  have h := C3_stale_get_purges 600 "k"
    (fun k' => if k' = "k" then some ⟨.obj [("cod", .num 200)], 0⟩ else none)
    ⟨.obj [("cod", .num 200)], 0⟩ (by simp) (by norm_num [CACHE_TTL])
  exact ⟨by simp, by norm_num [CACHE_TTL], h.2.1, h.2.2⟩

/-- C4: `put(k, v)` stores `v` with `storedAt = now`, unconditionally
overwriting any prior entry; a `get(k)` strictly within the TTL window
returns `v` unchanged and leaves the cache as is. -/
theorem C4_put_then_get (now1 now2 : ℚ) (k : String) (v : JVal) (c : CacheMap)
    (h : now2 - now1 < CACHE_TTL) :
    set_cache now1 k v c k = some ⟨v, now1⟩
    ∧ (get_cached now2 k (set_cache now1 k v c)).1 = some v
    ∧ (get_cached now2 k (set_cache now1 k v c)).2 = set_cache now1 k v c := by
  have h1 : set_cache now1 k v c k = some ⟨v, now1⟩ := by simp [set_cache, mapInsert]
  refine ⟨h1, ?_, ?_⟩
  · unfold get_cached
    rw [h1]
    simp [h]
  · unfold get_cached
    rw [h1]
    simp [h]

/-- C4 witness: a put at time 0 read back at time 1, over a cache that
already held a different entry for the same key. -/
theorem C4_put_then_get_witness :
    ((1 : ℚ) - 0 < CACHE_TTL)
    ∧ set_cache 0 "k" (.str "new")
        (fun k' => if k' = "k" then some ⟨.str "old", 0⟩ else none) "k"
        = some ⟨.str "new", 0⟩
    ∧ (get_cached 1 "k" (set_cache 0 "k" (.str "new")
        (fun k' => if k' = "k" then some ⟨.str "old", 0⟩ else none))).1
        = some (.str "new") := by
  have h := C4_put_then_get 0 1 "k" (.str "new")
    (fun k' => if k' = "k" then some ⟨.str "old", 0⟩ else none)
    (by norm_num [CACHE_TTL])
  exact ⟨by norm_num [CACHE_TTL], h.1, h.2.1⟩

/-- C2 counterexample to the claim as stated: a fingerprint with a *fresh*
cache entry whose payload is the empty dict.  Python's `if cached:` treats
the empty dict as falsy, so `make_weather_request` still performs one
upstream HTTP call instead of zero. -/
theorem C2_counterexample :
    ((fun k => if k = get_cache_key "e" [] then some (⟨.obj [], 0⟩ : CacheEntry)
        else none) : CacheMap) (get_cache_key "e" []) = some ⟨.obj [], 0⟩
    ∧ ((0 : ℚ) - (⟨JVal.obj [], 0⟩ : CacheEntry).timestamp < CACHE_TTL)
    ∧ (make_weather_request "k" 0 (.resp 200 (.obj [("cod", .num 200)])) "e" []
        (fun k => if k = get_cache_key "e" [] then some ⟨.obj [], 0⟩ else none)).calls
        = 1 := by
  refine ⟨by simp, by norm_num [CACHE_TTL], ?_⟩
  have hc0 : ((fun k => if k = get_cache_key "e" [] then
      some (⟨.obj [], 0⟩ : CacheEntry) else none) : CacheMap) (get_cache_key "e" [])
      = some ⟨.obj [], 0⟩ := by simp
  have hmiss : servesFromCache 0 (get_cache_key "e" [])
      (fun k => if k = get_cache_key "e" [] then some ⟨.obj [], 0⟩ else none) = false := by
    unfold servesFromCache get_cached
    rw [hc0]
    norm_num [CACHE_TTL, JVal.truthy]
  rw [make_request_fetch _ _ _ _ _ _ (by simp) hmiss]
  exact fetchUpstream_calls _ _ _ _

/-- C2 (amended): with an API key configured, a request whose fingerprint has
a fresh cache entry with a *non-empty* payload dict performs zero upstream
calls and returns success with the payload marked `_from_cache`; a request
whose fingerprint is absent, stale, or fresh-but-empty (Python-falsy)
performs exactly one upstream call. -/
theorem C2_hit_no_call_miss_one_call (apiKey : String) (now : ℚ) (up : Upstream)
    (endpoint : String) (params : List (String × PVal)) (c : CacheMap)
    (hk : apiKey ≠ "") :
    (∀ e fs, c (get_cache_key endpoint params) = some e →
       now - e.timestamp < CACHE_TTL → e.data = .obj fs → fs ≠ [] →
       (make_weather_request apiKey now up endpoint params c).calls = 0
       ∧ (make_weather_request apiKey now up endpoint params c).result
           = [("success", .bool true),
              ("data", .obj (objInsert "_from_cache" (.bool true) fs))]
       ∧ objLookup "_from_cache" (objInsert "_from_cache" (.bool true) fs)
           = some (.bool true))
    ∧ (servesFromCache now (get_cache_key endpoint params) c = false →
       (make_weather_request apiKey now up endpoint params c).calls = 1) := by
  constructor
  · intro e fs hc hfresh hobj hne
    have htruthy : e.data.truthy = true := by
      rw [hobj]
      simp [JVal.truthy, hne]
    have h := make_request_hit apiKey now up endpoint params c e hk hc hfresh htruthy
    rw [h]
    refine ⟨rfl, ?_, objLookup_objInsert_self _ _ _⟩
    rw [hobj]
    rfl
  · intro hmiss
    rw [make_request_fetch apiKey now up endpoint params c hk hmiss]
    exact fetchUpstream_calls _ _ _ _

/-- C2 witness: a fresh non-empty entry is served with zero calls; the empty
cache leads to exactly one call. -/
theorem C2_hit_no_call_miss_one_call_witness :
    (("k" : String) ≠ "")
    ∧ ((fun k => if k = get_cache_key "e" [] then
          some (⟨.obj [("name", .str "London")], 0⟩ : CacheEntry) else none) : CacheMap)
        (get_cache_key "e" []) = some ⟨.obj [("name", .str "London")], 0⟩
    ∧ ((1 : ℚ) - (⟨JVal.obj [("name", .str "London")], 0⟩ : CacheEntry).timestamp
        < CACHE_TTL)
    ∧ (make_weather_request "k" 1 .timeout "e" []
        (fun k => if k = get_cache_key "e" [] then
          some ⟨.obj [("name", .str "London")], 0⟩ else none)).calls = 0
    ∧ servesFromCache 1 (get_cache_key "e" []) emptyCache = false
    ∧ (make_weather_request "k" 1 .timeout "e" [] emptyCache).calls = 1 := by
  have h := C2_hit_no_call_miss_one_call "k" 1 .timeout "e" []
    (fun k => if k = get_cache_key "e" [] then
      some ⟨.obj [("name", .str "London")], 0⟩ else none) (by simp)
  have h' := C2_hit_no_call_miss_one_call "k" 1 .timeout "e" [] emptyCache (by simp)
  refine ⟨by simp, by simp, by norm_num [CACHE_TTL], ?_, rfl, h'.2 rfl⟩
  exact (h.1 ⟨.obj [("name", .str "London")], 0⟩ [("name", .str "London")]
    (by simp) (by norm_num [CACHE_TTL]) rfl (by simp)).1

/-- C10: on a cache hit the `_from_cache` marker is written into the stored
dict itself (the returned dict aliases the cache entry), the entry's
timestamp is not refreshed, every other key of the cache is untouched, and a
later hit on the same entry leaves payload and timestamp unchanged (the
marker insertion is idempotent). -/
theorem C10_hit_marks_stored_payload (apiKey : String) (now : ℚ) (up : Upstream)
    (endpoint : String) (params : List (String × PVal)) (c : CacheMap)
    (e : CacheEntry) (fs : Obj)
    (hk : apiKey ≠ "") (hc : c (get_cache_key endpoint params) = some e)
    (hfresh : now - e.timestamp < CACHE_TTL) (hobj : e.data = .obj fs) (hne : fs ≠ []) :
    (make_weather_request apiKey now up endpoint params c).cache
        (get_cache_key endpoint params)
      = some ⟨.obj (objInsert "_from_cache" (.bool true) fs), e.timestamp⟩
    ∧ (∀ k', k' ≠ get_cache_key endpoint params →
        (make_weather_request apiKey now up endpoint params c).cache k' = c k')
    ∧ (make_weather_request apiKey now up endpoint params c).calls = 0
    ∧ (∀ now2 up2, now2 - e.timestamp < CACHE_TTL →
        (make_weather_request apiKey now2 up2 endpoint params
            (make_weather_request apiKey now up endpoint params c).cache).cache
          (get_cache_key endpoint params)
          = some ⟨.obj (objInsert "_from_cache" (.bool true) fs), e.timestamp⟩) := by
  have htruthy : e.data.truthy = true := by
    rw [hobj]
    simp [JVal.truthy, hne]
  have h := make_request_hit apiKey now up endpoint params c e hk hc hfresh htruthy
  have hcache : (make_weather_request apiKey now up endpoint params c).cache
      (get_cache_key endpoint params)
      = some ⟨.obj (objInsert "_from_cache" (.bool true) fs), e.timestamp⟩ := by
    rw [h]
    simp only [mutateEntryData, if_pos rfl, hc, Option.map_some]
    rw [hobj]
    rfl
  refine ⟨hcache, ?_, by rw [h], ?_⟩
  · intro k' hk'
    rw [h]
    simp [mutateEntryData, hk']
  · intro now2 up2 hfresh2
    have htruthy2 : (JVal.obj (objInsert "_from_cache" (.bool true) fs)).truthy = true := by
      simp [JVal.truthy, objInsert_ne_nil]
    have h2 := make_request_hit apiKey now2 up2 endpoint params
      (make_weather_request apiKey now up endpoint params c).cache
      ⟨.obj (objInsert "_from_cache" (.bool true) fs), e.timestamp⟩ hk hcache hfresh2 htruthy2
    rw [h2]
    simp only [mutateEntryData, if_pos rfl, hcache, Option.map_some]
    simp [setFromCache, objInsert_objInsert]

/-- C10 witness: a fresh entry `\x7b"name": "London"\x7d` at timestamp 0, hit at
time 1 and hit again at time 2. -/
theorem C10_hit_marks_stored_payload_witness :
    (("k" : String) ≠ "")
    ∧ ((fun k => if k = get_cache_key "e" [] then
          some (⟨.obj [("name", .str "London")], 0⟩ : CacheEntry) else none) : CacheMap)
        (get_cache_key "e" []) = some ⟨.obj [("name", .str "London")], 0⟩
    ∧ ((1 : ℚ) - 0 < CACHE_TTL)
    ∧ (make_weather_request "k" 1 .timeout "e" []
        (fun k => if k = get_cache_key "e" [] then
          some ⟨.obj [("name", .str "London")], 0⟩ else none)).cache (get_cache_key "e" [])
        = some ⟨.obj [("name", .str "London"), ("_from_cache", .bool true)], 0⟩ := by
  have h := C10_hit_marks_stored_payload "k" 1 .timeout "e" []
    (fun k => if k = get_cache_key "e" [] then
      some ⟨.obj [("name", .str "London")], 0⟩ else none)
    ⟨.obj [("name", .str "London")], 0⟩ [("name", .str "London")]
    (by simp) (by simp) (by norm_num [CACHE_TTL]) rfl (by simp)
  exact ⟨by simp, by simp, by norm_num [CACHE_TTL], h.1⟩

/-- C8: with a key configured and no cache hit, `make_weather_request`
classifies the upstream outcome: 401 → "Invalid API key", 404 → "Location
not found", any other non-200 status → "API error: <code>" carrying the
status code, timeout → "Request timed out", other network failure →
"Request failed: ...", and any other exception → "Unexpected error: ...". -/
theorem C8_status_classification (apiKey : String) (now : ℚ) (endpoint : String)
    (params : List (String × PVal)) (c : CacheMap)
    (hk : apiKey ≠ "")
    (hmiss : servesFromCache now (get_cache_key endpoint params) c = false) :
    (∀ body, (make_weather_request apiKey now (.resp 401 body) endpoint params c).result
        = [("success", .bool false), ("error", .str "Invalid API key"),
           ("status_code", .num 401)])
    ∧ (∀ body, (make_weather_request apiKey now (.resp 404 body) endpoint params c).result
        = [("success", .bool false), ("error", .str "Location not found"),
           ("status_code", .num 404)])
    ∧ (∀ code body, code ≠ 200 → code ≠ 401 → code ≠ 404 →
        (make_weather_request apiKey now (.resp code body) endpoint params c).result
          = [("success", .bool false), ("error", .str ("API error: " ++ toString code)),
             ("status_code", .num code)])
    ∧ ((make_weather_request apiKey now .timeout endpoint params c).result
        = [("success", .bool false), ("error", .str "Request timed out")])
    ∧ (∀ m, (make_weather_request apiKey now (.reqError m) endpoint params c).result
        = [("success", .bool false), ("error", .str ("Request failed: " ++ m))])
    ∧ (∀ m, (make_weather_request apiKey now (.otherExc m) endpoint params c).result
        = [("success", .bool false), ("error", .str ("Unexpected error: " ++ m))]) := by
  refine ⟨?_, ?_, ?_, ?_, ?_, ?_⟩
  · intro body
    rw [make_request_fetch _ _ _ _ _ _ hk hmiss]
    simp [fetchUpstream]
  · intro body
    rw [make_request_fetch _ _ _ _ _ _ hk hmiss]
    simp [fetchUpstream]
  · intro code body h200 h401 h404
    rw [make_request_fetch _ _ _ _ _ _ hk hmiss]
    simp [fetchUpstream, h200, h401, h404]
  · rw [make_request_fetch _ _ _ _ _ _ hk hmiss]
    rfl
  · intro m
    rw [make_request_fetch _ _ _ _ _ _ hk hmiss]
    rfl
  · intro m
    rw [make_request_fetch _ _ _ _ _ _ hk hmiss]
    rfl

/-- C8 witness: against the empty cache, a 500 response and a timeout are
classified as stated. -/
theorem C8_status_classification_witness :
    (("k" : String) ≠ "")
    ∧ servesFromCache 0 (get_cache_key "e" []) emptyCache = false
    ∧ (make_weather_request "k" 0 (.resp 500 .null) "e" [] emptyCache).result
        = [("success", .bool false), ("error", .str ("API error: " ++ toString 500)),
           ("status_code", .num 500)]
    ∧ (make_weather_request "k" 0 .timeout "e" [] emptyCache).result
        = [("success", .bool false), ("error", .str "Request timed out")] := by
  have h := C8_status_classification "k" 0 "e" [] emptyCache (by simp) rfl
  exact ⟨by simp, rfl, h.2.2.1 500 .null (by decide) (by decide) (by decide),
    h.2.2.2.1⟩

/-- C5 counterexample to the claim as stated: a failure outcome (timeout)
whose fingerprint had a *stale* cache entry.  The lazy-expiry read deletes
the stale entry, so the cache state after the failed call differs from the
state before it. -/
theorem C5_counterexample :
    objLookup "success" (make_weather_request "k" 600 .timeout "e" []
        (fun k => if k = get_cache_key "e" [] then
          some (⟨.obj [("cod", .num 200)], 0⟩ : CacheEntry) else none)).result
      = some (.bool false)
    ∧ ((fun k => if k = get_cache_key "e" [] then
          some (⟨.obj [("cod", .num 200)], 0⟩ : CacheEntry) else none) : CacheMap)
        (get_cache_key "e" []) = some ⟨.obj [("cod", .num 200)], 0⟩
    ∧ (make_weather_request "k" 600 .timeout "e" []
        (fun k => if k = get_cache_key "e" [] then
          some ⟨.obj [("cod", .num 200)], 0⟩ else none)).cache (get_cache_key "e" [])
        = none
    ∧ (make_weather_request "k" 600 .timeout "e" []
        (fun k => if k = get_cache_key "e" [] then
          some ⟨.obj [("cod", .num 200)], 0⟩ else none)).cache
        ≠ (fun k => if k = get_cache_key "e" [] then
          some ⟨.obj [("cod", .num 200)], 0⟩ else none) := by
  have hc0 : ((fun k => if k = get_cache_key "e" [] then
      some (⟨.obj [("cod", .num 200)], 0⟩ : CacheEntry) else none) : CacheMap)
      (get_cache_key "e" []) = some ⟨.obj [("cod", .num 200)], 0⟩ := by simp
  have hmiss : servesFromCache 600 (get_cache_key "e" [])
      (fun k => if k = get_cache_key "e" [] then
        some ⟨.obj [("cod", .num 200)], 0⟩ else none) = false := by
    unfold servesFromCache get_cached
    rw [hc0]
    norm_num [CACHE_TTL]
  have hreq := make_request_fetch "k" 600 .timeout "e" []
    (fun k => if k = get_cache_key "e" [] then
      some ⟨.obj [("cod", .num 200)], 0⟩ else none) (by simp) hmiss
  have hg2 : (get_cached 600 (get_cache_key "e" [])
      (fun k => if k = get_cache_key "e" [] then
        some ⟨.obj [("cod", .num 200)], 0⟩ else none)).2
      = mapErase (get_cache_key "e" [])
        (fun k => if k = get_cache_key "e" [] then
          some ⟨.obj [("cod", .num 200)], 0⟩ else none) := by
    unfold get_cached
    rw [hc0]
    norm_num [CACHE_TTL]
  have hnone : (make_weather_request "k" 600 .timeout "e" []
      (fun k => if k = get_cache_key "e" [] then
        some ⟨.obj [("cod", .num 200)], 0⟩ else none)).cache (get_cache_key "e" [])
      = none := by
    rw [hreq]
    show (get_cached 600 (get_cache_key "e" []) _).2 (get_cache_key "e" []) = none
    rw [hg2]
    simp [mapErase]
  refine ⟨?_, hc0, hnone, ?_⟩
  · rw [hreq]
    rfl
  · intro h
    have h' := congrFun h (get_cache_key "e" [])
    rw [hnone] at h'
    simp at h'

/-- C5 (amended): every failure outcome of `make_weather_request` is a
structured result with `success: false` and a human-readable error string,
and nothing is written to the cache — the cache after the call equals the
cache before it, except that a stale entry under the request's own
fingerprint may have been purged by the lazy-expiry read. -/
theorem C5_failure_structured_result (apiKey : String) (now : ℚ) (up : Upstream)
    (endpoint : String) (params : List (String × PVal)) (c : CacheMap)
    (hfail : objLookup "success"
        (make_weather_request apiKey now up endpoint params c).result
        = some (.bool false)) :
    (∃ m, objLookup "error"
        (make_weather_request apiKey now up endpoint params c).result = some (.str m))
    ∧ ((make_weather_request apiKey now up endpoint params c).cache = c
       ∨ (make_weather_request apiKey now up endpoint params c).cache
           = mapErase (get_cache_key endpoint params) c) := by
  by_cases hk : apiKey = ""
  · subst hk
    rw [make_request_no_key] at hfail ⊢
    exact ⟨⟨apiKeyErrMsg, by simp [objLookup]⟩, Or.inl rfl⟩
  · by_cases hserve : servesFromCache now (get_cache_key endpoint params) c = true
    · obtain ⟨d, hd⟩ := make_request_serve apiKey now up endpoint params c hk hserve
      rw [hd] at hfail
      simp [objLookup] at hfail
    · have hmiss : servesFromCache now (get_cache_key endpoint params) c = false :=
        Bool.not_eq_true _ ▸ (Bool.eq_false_iff.mpr hserve)
      rw [make_request_fetch _ _ _ _ _ _ hk hmiss] at hfail ⊢
      have hsnd := get_cached_snd now (get_cache_key endpoint params) c
      cases up with
      | resp code body =>
          by_cases h200 : code = 200
          · subst h200
            simp [fetchUpstream, objLookup] at hfail
          · by_cases h401 : code = 401
            · subst h401
              refine ⟨⟨"Invalid API key", by simp [fetchUpstream, objLookup]⟩, ?_⟩
              simpa [fetchUpstream] using hsnd
            · by_cases h404 : code = 404
              · subst h404
                refine ⟨⟨"Location not found", by simp [fetchUpstream, objLookup]⟩, ?_⟩
                simpa [fetchUpstream] using hsnd
              · refine ⟨⟨"API error: " ++ toString code,
                  by simp [fetchUpstream, objLookup, h200, h401, h404]⟩, ?_⟩
                simpa [fetchUpstream, h200, h401, h404] using hsnd
      | timeout =>
          exact ⟨⟨"Request timed out", by simp [fetchUpstream, objLookup]⟩,
            by simpa [fetchUpstream] using hsnd⟩
      | reqError m =>
          exact ⟨⟨"Request failed: " ++ m, by simp [fetchUpstream, objLookup]⟩,
            by simpa [fetchUpstream] using hsnd⟩
      | otherExc m =>
          exact ⟨⟨"Unexpected error: " ++ m, by simp [fetchUpstream, objLookup]⟩,
            by simpa [fetchUpstream] using hsnd⟩

/-- C5 witness: a timeout against the empty cache yields a structured error
and leaves the cache exactly as it was. -/
theorem C5_failure_structured_result_witness :
    objLookup "success" (make_weather_request "k" 0 .timeout "e" [] emptyCache).result
      = some (.bool false)
    ∧ (∃ m, objLookup "error"
        (make_weather_request "k" 0 .timeout "e" [] emptyCache).result = some (.str m))
    ∧ ((make_weather_request "k" 0 .timeout "e" [] emptyCache).cache = emptyCache
       ∨ (make_weather_request "k" 0 .timeout "e" [] emptyCache).cache
           = mapErase (get_cache_key "e" []) emptyCache) := by
  have hfail : objLookup "success"
      (make_weather_request "k" 0 .timeout "e" [] emptyCache).result
      = some (.bool false) := by
    rw [make_request_fetch "k" 0 .timeout "e" [] emptyCache (by simp) rfl]
    rfl
  have h := C5_failure_structured_result "k" 0 .timeout "e" [] emptyCache hfail
  exact ⟨hfail, h.1, h.2⟩

/-- C7: `compare_weather` rejects lists of fewer than 2 or more than 5
locations with `success: false`, before any upstream call and without any
cache write; lists of 2 to 5 locations pass the validation (the aggregate
result is `success: true`). -/
theorem C7_compare_length_validation (apiKey : String) (now : ℚ) (isoOf : ℚ → String)
    (ups : Nat → Upstream) (locations : List String) (units : String) (c : CacheMap) :
    ((locations.length < 2 ∨ 5 < locations.length) →
      (compare_weather apiKey now isoOf ups locations units c).calls = 0
      ∧ (compare_weather apiKey now isoOf ups locations units c).cache = c
      ∧ objLookup "success"
          (compare_weather apiKey now isoOf ups locations units c).result
          = some (.bool false))
    ∧ (2 ≤ locations.length → locations.length ≤ 5 →
      objLookup "success" (compare_weather apiKey now isoOf ups locations units c).result
        = some (.bool true)) := by
  constructor
  · intro h
    unfold compare_weather
    rcases h with h | h
    · rw [if_pos h]
      exact ⟨rfl, rfl, by simp [objLookup]⟩
    · rw [if_neg (by omega), if_pos (by omega)]
      exact ⟨rfl, rfl, by simp [objLookup]⟩
  · intro h2 h5
    unfold compare_weather
    rw [if_neg (by omega), if_neg (by omega)]
    simp [objLookup]

/-- C7 witness: one location is rejected with no upstream call; two
locations pass the validation. -/
theorem C7_compare_length_validation_witness :
    ((["a"].length < 2 ∨ 5 < ["a"].length)
      ∧ (compare_weather "k" 0 (fun _ => "") (fun _ => .timeout) ["a"] "metric"
          emptyCache).calls = 0
      ∧ objLookup "success" (compare_weather "k" 0 (fun _ => "") (fun _ => .timeout)
          ["a"] "metric" emptyCache).result = some (.bool false))
    ∧ (2 ≤ (["a", "b"] : List String).length ∧ (["a", "b"] : List String).length ≤ 5
      ∧ objLookup "success" (compare_weather "k" 0 (fun _ => "") (fun _ => .timeout)
          ["a", "b"] "metric" emptyCache).result = some (.bool true)) := by
  have h1 := C7_compare_length_validation "k" 0 (fun _ => "") (fun _ => .timeout)
    ["a"] "metric" emptyCache
  have h2 := C7_compare_length_validation "k" 0 (fun _ => "") (fun _ => .timeout)
    ["a", "b"] "metric" emptyCache
  exact ⟨⟨Or.inl (by decide), (h1.1 (Or.inl (by decide))).1,
    (h1.1 (Or.inl (by decide))).2.2⟩,
    ⟨by decide, by decide, h2.2 (by decide) (by decide)⟩⟩

/-- C9: when the upstream payload has `name == "London"`,
`sys.country == "GB"` and `main.temp == 15.5`, `get_current_weather` returns
`success: true` with `location.name == "London"`, `location.country == "GB"`
and `current.temperature == 15.5`. -/
theorem C9_london_payload (apiKey : String) (now : ℚ) (isoOf : ℚ → String)
    (location units : String) (d s m : Obj)
    (hk : apiKey ≠ "")
    (hname : objLookup "name" d = some (.str "London"))
    (hsys : objLookup "sys" d = some (.obj s))
    (hcountry : objLookup "country" s = some (.str "GB"))
    (hmain : objLookup "main" d = some (.obj m))
    (htemp : objLookup "temp" m = some (.num 15.5)) :
    objLookup "success" (get_current_weather apiKey now isoOf (.resp 200 (.obj d))
        location units emptyCache).result = some (.bool true)
    ∧ pyGet (pyGet (get_current_weather apiKey now isoOf (.resp 200 (.obj d))
        location units emptyCache).result "location").asObj "name" = .str "London"
    ∧ pyGet (pyGet (get_current_weather apiKey now isoOf (.resp 200 (.obj d))
        location units emptyCache).result "location").asObj "country" = .str "GB"
    ∧ pyGet (pyGet (get_current_weather apiKey now isoOf (.resp 200 (.obj d))
        location units emptyCache).result "current").asObj "temperature" = .num 15.5 := by
  have hmiss : servesFromCache now (get_cache_key (BASE_URL ++ "/weather")
      [("q", PVal.str location), ("units", PVal.str units)]) emptyCache = false := rfl
  have hreq := make_request_fetch apiKey now (.resp 200 (.obj d))
    (BASE_URL ++ "/weather") [("q", PVal.str location), ("units", PVal.str units)]
    emptyCache hk hmiss
  simp only [get_current_weather, hreq, fetchUpstream, if_pos rfl]
  refine ⟨?_, ?_, ?_, ?_⟩ <;>
    simp [resultOk, pyGet, pyGetD, pyGetObj, objLookup, JVal.truthy, JVal.asObj,
      hname, hsys, hcountry, hmain, htemp]

/-- C9 witness: the canned London payload. -/
theorem C9_london_payload_witness :
    (("k" : String) ≠ "")
    ∧ objLookup "name" [(("name" : String), JVal.str "London"),
        ("sys", .obj [("country", .str "GB")]), ("main", .obj [("temp", .num 15.5)])]
        = some (.str "London")
    ∧ objLookup "success" (get_current_weather "k" 0 (fun _ => "")
        (.resp 200 (.obj [("name", .str "London"), ("sys", .obj [("country", .str "GB")]),
          ("main", .obj [("temp", .num 15.5)])]))
        "London,UK" "metric" emptyCache).result = some (.bool true)
    ∧ pyGet (pyGet (get_current_weather "k" 0 (fun _ => "")
        (.resp 200 (.obj [("name", .str "London"), ("sys", .obj [("country", .str "GB")]),
          ("main", .obj [("temp", .num 15.5)])]))
        "London,UK" "metric" emptyCache).result "location").asObj "name" = .str "London"
    ∧ pyGet (pyGet (get_current_weather "k" 0 (fun _ => "")
        (.resp 200 (.obj [("name", .str "London"), ("sys", .obj [("country", .str "GB")]),
          ("main", .obj [("temp", .num 15.5)])]))
        "London,UK" "metric" emptyCache).result "current").asObj "temperature"
        = .num 15.5 := by
  have h := C9_london_payload "k" 0 (fun _ => "") "London,UK" "metric"
    [("name", .str "London"), ("sys", .obj [("country", .str "GB")]),
      ("main", .obj [("temp", .num 15.5)])]
    [("country", .str "GB")] [("temp", .num 15.5)]
    (by simp) (by simp [objLookup]) (by simp [objLookup]) (by simp [objLookup])
    (by simp [objLookup]) (by simp [objLookup])
  exact ⟨by simp, by simp [objLookup], h.1, h.2.1, h.2.2.2⟩

/-- C6 counterexample to the claim as stated: with no API key configured, a
`compare_weather` call with two locations returns an aggregate
`success: true` (the per-location errors are inside `locations`), not
`success: false`. -/
theorem C6_counterexample :
    objLookup "success" (runTool "" 0 (fun _ => "") (fun _ => .timeout)
        (.compare ["Paris", "Rome"] "metric") emptyCache).result = some (.bool true)
    ∧ objLookup "success" (runTool "" 0 (fun _ => "") (fun _ => .timeout)
        (.compare ["Paris", "Rome"] "metric") emptyCache).result
        ≠ some (.bool false) := by
  have h : objLookup "success" (runTool "" 0 (fun _ => "") (fun _ => .timeout)
      (.compare ["Paris", "Rome"] "metric") emptyCache).result = some (.bool true) := by
    simp only [runTool, compare_weather]
    rw [if_neg (by decide), if_neg (by decide)]
    simp only [compareLoop_no_key]
    simp [objLookup]
  refine ⟨h, ?_⟩
  rw [h]
  simp

/-- C6 (amended): with no API key configured, every tool call leaves the
cache unchanged (so an empty cache remains empty) and performs no upstream
call; every tool except `compare_weather` returns `success: false` with the
API-key-not-configured message, while `compare_weather` with a valid-length
list returns aggregate `success: true` carrying that message per location
(and with an invalid-length list its own validation error). -/
theorem C6_no_key_behaviour (now : ℚ) (isoOf : ℚ → String) (ups : Nat → Upstream)
    (call : ToolCall) (c : CacheMap) :
    (runTool "" now isoOf ups call c).cache = c
    ∧ (runTool "" now isoOf ups call c).calls = 0
    ∧ (match call with
       | .compare locations units =>
           if locations.length < 2 then
             (runTool "" now isoOf ups call c).result
               = [("success", .bool false),
                  ("error", .str "Please provide at least 2 locations to compare")]
           else if locations.length > 5 then
             (runTool "" now isoOf ups call c).result
               = [("success", .bool false),
                  ("error", .str "Maximum 5 locations allowed for comparison")]
           else
             (runTool "" now isoOf ups call c).result
               = [("success", .bool true),
                  ("locations", .arr (locations.map (fun l =>
                      JVal.obj [("location", .str l), ("error", .str apiKeyErrMsg)]))),
                  ("units", .str units),
                  ("comparison_time", .str (isoOf now))]
       | _ => (runTool "" now isoOf ups call c).result
               = [("success", .bool false), ("error", .str apiKeyErrMsg)]) := by
  cases call with
  | currentWeather location units => exact ⟨rfl, rfl, rfl⟩
  | forecast location units days => exact ⟨rfl, rfl, rfl⟩
  | byCoordinates latitude longitude units => exact ⟨rfl, rfl, rfl⟩
  | airQuality latitude longitude => exact ⟨rfl, rfl, rfl⟩
  | searchLoc query limit => exact ⟨rfl, rfl, rfl⟩
  | compare locations units =>
      simp only [runTool, compare_weather]
      by_cases h2 : locations.length < 2
      · rw [if_pos h2]
        exact ⟨rfl, rfl, by rw [if_pos h2]⟩
      · by_cases h5 : locations.length > 5
        · rw [if_neg h2, if_pos h5]
          refine ⟨rfl, rfl, ?_⟩
          rw [if_neg h2, if_pos h5]
        · rw [if_neg h2, if_neg h5]
          simp only [compareLoop_no_key]
          simp
          omega

end WeatherMCP
